import Mathlib

/-
Verification development for the knowledgeTrace-server Project Lifecycle and
Collaboration Engine. Each definition is a shallow embedding of a function of
the JavaScript source; the file or class and the relevant lines are cited in
the doc comment of every definition. Database reads and writes are modelled by
explicit state records; every controller returns a pair of an outcome (one
constructor per distinct HTTP response of the source) and the post-state, so
that "no write happened" is a provable equality between states. JS number
arithmetic on match scores and similarities is modelled by exact rationals:
all values produced by the code here are ratios of small integers scaled by
100, for which IEEE double evaluation agrees with the exact rational value at
every comparison and rounding performed by the code. JS strings are modelled
by Lean strings, with the relevant JS string primitives re-implemented over
the underlying character lists (ASCII case mapping, as all inputs of interest
are ASCII).
-/

namespace KnowledgeTrace

/-- Workflow states of a project, from src/unnamed/part_008 (Project model)
lines 22 to 24. -/
inductive Status where
  | draft
  | pending_proposal
  | supervisor_review
  | changes_requested
  | approved
  | mid_defense
  | final_submission
  | completed
  | archived
deriving DecidableEq, Repr

/-- Transition table of Project.getValidTransitions, src/unnamed/part_008
lines 57 to 69. The JS object lookup returns undefined for a missing key and
the method then falls back to an empty array, which is the archived case. -/
def getValidTransitions : Status → List Status
  | .draft => [.pending_proposal]
  | .pending_proposal => [.supervisor_review]
  | .supervisor_review => [.approved, .changes_requested]
  | .changes_requested => [.pending_proposal]
  | .approved => [.mid_defense]
  | .mid_defense => [.final_submission]
  | .final_submission => [.completed]
  | .completed => [.archived]
  | .archived => []

/-- Project.canTransitionTo, src/unnamed/part_008 lines 76 to 78:
membership test in the valid-transition list. -/
def canTransitionTo (s t : Status) : Bool :=
  (getValidTransitions s).contains t

/-- Project record, src/unnamed/part_008 lines 2 to 42, restricted to the
fields the workflow, supervisor-assignment and team-formation controllers
read or write. Timestamps are modelled as natural numbers. -/
structure Project where
  title : String
  abstract : String
  authorId : String
  studentIds : List String
  supervisorId : String
  requiredSkills : List String
  status : Status
  visibility : String
  year : Nat
  updatedAt : Nat
deriving DecidableEq, Repr

/-- Outcomes of advancePhase, one constructor per distinct response of
src/controllers/workflowController.js lines 368 to 422: 403 Not authorized
(Forbidden), 400 Cannot transition (InvalidTransition, carrying the
validTransitions list sent to the caller), and the success response. -/
inductive AdvanceOutcome where
  | ok
  | forbidden
  | invalidTransition (valid : List Status)
deriving DecidableEq, Repr

/-- advancePhase, src/controllers/workflowController.js lines 368 to 422.
The project is passed directly (the ObjectId validity check and the 404
lookup of the database layer are outside the embedding). Returns the outcome
and the post-state of the project document; every error path of the source
returns before the updateOne call, so the post-state equals the input there. -/
def advancePhase (p : Project) (actorUid : String) (actorRole : String)
    (newPhase : Status) (now : Nat) : AdvanceOutcome × Project :=
  if p.supervisorId ≠ actorUid ∧ actorRole ≠ "admin" then
    (.forbidden, p)
  else if canTransitionTo p.status newPhase = false then
    (.invalidTransition (getValidTransitions p.status), p)
  else
    (.ok, { p with status := newPhase, updatedAt := now })

/-- Milestone record, src/unnamed/part_005 (ProjectMilestone model) lines 39
to 51. The optional deadline, completion time and reviewer are null until
set; feedback defaults to the empty string. -/
structure ProjectMilestone where
  projectId : String
  phase : String
  status : String
  deadline : Option Nat
  completedAt : Option Nat
  reviewerId : Option String
  feedback : String
  createdAt : Nat
  updatedAt : Nat
deriving DecidableEq, Repr

/-- State touched by the workflow controller: the project document under its
id, and the milestones collection. -/
structure WorkflowState where
  projectId : String
  project : Project
  milestones : List ProjectMilestone
deriving DecidableEq, Repr

/-- Outcomes of submitProposal, one constructor per distinct response of
src/controllers/workflowController.js lines 73 to 142: 403 Only project
owner can submit (Forbidden), 400 must have a supervisor assigned and 400
cannot submit from status (both PreconditionFailed), and success. -/
inductive SubmitOutcome where
  | ok
  | forbidden
  | preconditionFailed
deriving DecidableEq, Repr

/-- submitProposal, src/controllers/workflowController.js lines 73 to 142.
Checks ownership, then supervisor assignment (the empty string is the
unassigned supervisorId, falsy in JS), then the draft status; on success it
writes status supervisor_review and inserts a proposal milestone with status
in_progress (constructor defaults of src/unnamed/part_005 lines 40 to 51). -/
def submitProposal (st : WorkflowState) (studentUid : String) (now : Nat) :
    SubmitOutcome × WorkflowState :=
  if st.project.authorId ≠ studentUid then
    (.forbidden, st)
  else if st.project.supervisorId = "" then
    (.preconditionFailed, st)
  else if st.project.status ≠ Status.draft then
    (.preconditionFailed, st)
  else
    (.ok,
      { st with
        project := { st.project with status := .supervisor_review, updatedAt := now }
        milestones := st.milestones ++
          [{ projectId := st.projectId
           , phase := "proposal"
           , status := "in_progress"
           , deadline := none
           , completedAt := none
           , reviewerId := none
           , feedback := ""
           , createdAt := now
           , updatedAt := now }] })

/-- Sample project used by concrete witnesses. -/
def exProject : Project :=
  { title := "Thesis"
  , abstract := "An abstract"
  , authorId := "alice"
  , studentIds := ["alice"]
  , supervisorId := "supvr"
  , requiredSkills := []
  , status := .draft
  , visibility := "public"
  , year := 2024
  , updatedAt := 0 }

/-- Validation of the review body, workflowReviewSchema of src/unnamed/part_004
lines 67 to 83: the action must be one of approve, request_changes, reject;
the feedback is a Joi string, hence non-empty when present, required for
request_changes and reject and optional for approve. -/
def workflowReviewValid (action : String) (feedback : Option String) : Bool :=
  (action == "approve" || action == "request_changes" || action == "reject") &&
  (match feedback with
   | some f => !(f == "")
   | none => action == "approve")

/-- Outcomes of reviewProject, one constructor per distinct response of
src/controllers/workflowController.js lines 148 to 240: 400 invalid review
data or invalid action (ValidationError), 403 not authorized (Forbidden),
400 cannot approve in current status (PreconditionFailed), and success
carrying the new status of the response body. -/
inductive ReviewOutcome where
  | ok (newStatus : Status)
  | validationError
  | forbidden
  | preconditionFailed
deriving DecidableEq, Repr

/-- Replacement of the first element satisfying a predicate, the semantics of
a MongoDB updateOne call on the collections modelled as lists. -/
def updateFirst (p : α → Bool) (f : α → α) : List α → List α
  | [] => []
  | x :: xs => if p x then f x :: xs else x :: updateFirst p f xs

/-- Milestone write performed by reviewProject, src/controllers/
workflowController.js lines 211 to 224: updateOne on the filter
(projectId, phase proposal) with no upsert flag, so when no milestone
matches nothing is written and nothing is created. -/
def reviewMilestoneWrite (pid supervisorUid action : String)
    (feedback : Option String) (now : Nat)
    (ms : List ProjectMilestone) : List ProjectMilestone :=
  updateFirst (fun m => m.projectId == pid && m.phase == "proposal")
    (fun m =>
      { m with
        status := if action = "approve" then "completed" else "rejected"
        reviewerId := some supervisorUid
        feedback := feedback.getD ""
        completedAt := some now
        updatedAt := now })
    ms

/-- Success path of reviewProject, src/controllers/workflowController.js
lines 200 to 232: the project status update followed by the milestone
updateOne, returning the new status in the response. -/
def reviewApply (st : WorkflowState) (supervisorUid action : String)
    (feedback : Option String) (now : Nat) (newStatus : Status) :
    ReviewOutcome × WorkflowState :=
  (.ok newStatus,
    { st with
      project := { st.project with status := newStatus, updatedAt := now }
      milestones :=
        reviewMilestoneWrite st.projectId supervisorUid action feedback now
          st.milestones })

/-- reviewProject, src/controllers/workflowController.js lines 148 to 240.
Validation comes first, then the supervisor-or-admin authorization, then the
action switch of lines 180 to 198: approve is accepted only from
supervisor_review and yields approved, request_changes and reject both yield
changes_requested from any current status, and the default switch case is
the 400 Invalid action response; the project update and the milestone write
follow on success. -/
def reviewProject (st : WorkflowState) (supervisorUid supervisorRole : String)
    (action : String) (feedback : Option String) (now : Nat) :
    ReviewOutcome × WorkflowState :=
  if workflowReviewValid action feedback = false then
    (.validationError, st)
  else if st.project.supervisorId ≠ supervisorUid ∧ supervisorRole ≠ "admin" then
    (.forbidden, st)
  else if action = "approve" then
    if st.project.status = Status.supervisor_review then
      reviewApply st supervisorUid action feedback now .approved
    else
      (.preconditionFailed, st)
  else if action = "request_changes" then
    reviewApply st supervisorUid action feedback now .changes_requested
  else if action = "reject" then
    reviewApply st supervisorUid action feedback now .changes_requested
  else
    (.validationError, st)

/-- Sample workflow state awaiting supervisor review, with an empty milestone
collection. -/
def exReviewState : WorkflowState :=
  ⟨"p1", { exProject with status := .supervisor_review }, []⟩

/-- JS String.prototype.toLowerCase restricted to ASCII, the alphabet of
every input of interest; implemented over the character list because the
embedding must stay kernel-computable. -/
def jsToLower (s : String) : String :=
  ⟨s.data.map Char.toLower⟩

/-- Character class matched by the JS whitespace escape and trimmed by
String.prototype.trim: tab, line feed, vertical tab, form feed, carriage
return, space, no-break space, ogham space mark, the en quad to hair space
range, line separator, paragraph separator, narrow no-break space, medium
mathematical space, ideographic space and the byte order mark, listed by
codepoint. -/
def jsWhitespace (c : Char) : Bool :=
  [0x0009, 0x000A, 0x000B, 0x000C, 0x000D, 0x0020, 0x00A0, 0x1680,
   0x2000, 0x2001, 0x2002, 0x2003, 0x2004, 0x2005, 0x2006, 0x2007,
   0x2008, 0x2009, 0x200A, 0x2028, 0x2029, 0x202F, 0x205F, 0x3000,
   0xFEFF].contains c.toNat

/-- JS String.prototype.trim: leading and trailing whitespace removed. -/
def jsTrim (s : String) : String :=
  ⟨(((s.data.dropWhile jsWhitespace).reverse).dropWhile jsWhitespace).reverse⟩

/-- Normalization applied to every skill by calculateMatchScore,
src/utils/teamMatching.js lines 31 and 32: s.toLowerCase().trim(). -/
def normalizeSkill (s : String) : String :=
  jsTrim (jsToLower s)

/-- Normalized skill lists of src/utils/teamMatching.js lines 31 and 32. -/
def normalizeSkills (skills : List String) : List String :=
  skills.map normalizeSkill

/-- Matched skills of src/utils/teamMatching.js lines 35 to 37: the
normalized required skills the normalized student skills contain. -/
def matchedSkillsOf (studentSkills requiredSkills : List String) : List String :=
  (normalizeSkills requiredSkills).filter
    (fun skill => (normalizeSkills studentSkills).contains skill)

/-- Missing skills of src/utils/teamMatching.js lines 39 to 41. -/
def missingSkillsOf (studentSkills requiredSkills : List String) : List String :=
  (normalizeSkills requiredSkills).filter
    (fun skill => !((normalizeSkills studentSkills).contains skill))

/-- Exact value of the JS expression
(matchedSkills.length / normalizedRequiredSkills.length) * 100 of
src/utils/teamMatching.js line 44. The lengths involved are small enough
that the IEEE double evaluation agrees with this exact rational at every
comparison and rounding the code performs on it. -/
def matchScorePct (studentSkills requiredSkills : List String) : ℚ :=
  mkRat (100 * (matchedSkillsOf studentSkills requiredSkills).length)
    (normalizeSkills requiredSkills).length

/-- JS Math.round: the floor of the argument plus one half, computed on the
numerator and denominator with the Euclidean integer division, which is
floor division since the denominator is positive. -/
def jsRound (q : ℚ) : ℤ :=
  (2 * q.num + q.den) / (2 * (q.den : ℤ))

/-- Match level thresholds of src/utils/teamMatching.js lines 47 to 54,
compared against the score before rounding. -/
def matchLevelOfPct (pct : ℚ) : String :=
  if 70 ≤ pct then "best_fit"
  else if 40 ≤ pct then "good_fit"
  else "needs_training"

/-- Return shape of calculateMatchScore, src/utils/teamMatching.js lines 10
to 17 and 56 to 62. -/
structure MatchResult where
  score : ℤ
  matchedSkills : List String
  missingSkills : List String
  totalRequired : Nat
  matchLevel : String
deriving DecidableEq, Repr

/-- calculateMatchScore, src/utils/teamMatching.js lines 9 to 63: empty
required skills yield the no_requirements record, an empty student list
yields zero with every required skill missing, and otherwise the score is
the rounded percentage of matched required skills with the threshold levels
taken on the unrounded percentage. -/
def calculateMatchScore (studentSkills requiredSkills : List String) :
    MatchResult :=
  if requiredSkills.length = 0 then
    { score := 0
    , matchedSkills := []
    , missingSkills := []
    , totalRequired := 0
    , matchLevel := "no_requirements" }
  else if studentSkills.length = 0 then
    { score := 0
    , matchedSkills := []
    , missingSkills := requiredSkills
    , totalRequired := requiredSkills.length
    , matchLevel := "needs_training" }
  else
    { score := jsRound (matchScorePct studentSkills requiredSkills)
    , matchedSkills := matchedSkillsOf studentSkills requiredSkills
    , missingSkills := missingSkillsOf studentSkills requiredSkills
    , totalRequired := (normalizeSkills requiredSkills).length
    , matchLevel := matchLevelOfPct (matchScorePct studentSkills requiredSkills) }

/-- Twenty-three pairwise distinct required skills; together with the first
sixteen of them as the student skills they realize the ratio sixteen out of
twenty-three, whose percentage 69.565 rounds to 70 while staying below the
best_fit threshold. -/
def exRequired23 : List String :=
  ["k01", "k02", "k03", "k04", "k05", "k06", "k07", "k08", "k09", "k10",
   "k11", "k12", "k13", "k14", "k15", "k16", "k17", "k18", "k19", "k20",
   "k21", "k22", "k23"]

/-- The first sixteen of exRequired23, used as the student skill list of the
threshold counterexample. -/
def exSkills16 : List String :=
  ["k01", "k02", "k03", "k04", "k05", "k06", "k07", "k08", "k09", "k10",
   "k11", "k12", "k13", "k14", "k15", "k16"]

/-- User document, src/models/User.js fields read by the supervisor and team
formation controllers: the uid, the profile fields copied into match
entries, the role string, the skill list and the supervised project ids. -/
structure UserRec where
  uid : String
  name : String
  email : String
  department : String
  role : String
  skills : List String
  supervisedProjects : List String
deriving DecidableEq, Repr

/-- Match entry built for one student by findMatchingStudents,
src/utils/teamMatching.js lines 77 to 87: the student profile fields merged
with the spread calculateMatchScore result. -/
structure MatchEntry where
  studentId : String
  name : String
  email : String
  department : String
  skills : List String
  score : ℤ
  matchedSkills : List String
  missingSkills : List String
  totalRequired : Nat
  matchLevel : String
deriving DecidableEq, Repr

/-- Entry construction of src/utils/teamMatching.js lines 77 to 87. -/
def toMatchEntry (student : UserRec) (requiredSkills : List String) :
    MatchEntry :=
  { studentId := student.uid
  , name := student.name
  , email := student.email
  , department := student.department
  , skills := student.skills
  , score := (calculateMatchScore student.skills requiredSkills).score
  , matchedSkills := (calculateMatchScore student.skills requiredSkills).matchedSkills
  , missingSkills := (calculateMatchScore student.skills requiredSkills).missingSkills
  , totalRequired := (calculateMatchScore student.skills requiredSkills).totalRequired
  , matchLevel := (calculateMatchScore student.skills requiredSkills).matchLevel }

/-- findMatchingStudents, src/utils/teamMatching.js lines 72 to 92: map the
students to match entries, keep the scores at least minScore, and sort by
score descending. Array.prototype.sort is stable and the comparator
(a, b) => b.score - a.score orders by score descending, which is exactly the
stable insertion sort under the relation that an earlier entry stays first
unless a later one has a strictly greater score. -/
def findMatchingStudents (students : List UserRec)
    (requiredSkills : List String) (minScore : ℤ) : List MatchEntry :=
  if students.length = 0 then []
  else
    List.insertionSort (fun a b => b.score ≤ a.score)
      ((students.map (fun s => toMatchEntry s requiredSkills)).filter
        (fun m => minScore ≤ m.score))

/-- Match level of a stored suggestion, derived from the rounded score by
TeamMatchSuggestion.getMatchLevel, src/models/TeamMatchSuggestion.js lines
17 to 21. -/
def suggestionMatchLevel (matchScore : ℤ) : String :=
  if 70 ≤ matchScore then "best_fit"
  else if 40 ≤ matchScore then "good_fit"
  else "needs_training"

/-- Stored suggestion document, src/models/TeamMatchSuggestion.js, as
written by its toJSON. -/
structure TeamMatchSuggestion where
  projectId : String
  studentId : String
  matchScore : ℤ
  matchedSkills : List String
  missingSkills : List String
  matchLevel : String
  createdAt : Nat
deriving DecidableEq, Repr

/-- Cached suggestion collection touched by the matching endpoint. -/
structure MatchState where
  suggestions : List TeamMatchSuggestion
deriving DecidableEq, Repr

/-- Response body of the matching endpoint: the total number of scored
matches and the truncated list actually returned and cached. -/
structure FindMatchesOutcome where
  totalMatches : Nat
  matchList : List MatchEntry
deriving DecidableEq, Repr

/-- findMatchingStudentsForProject, src/controllers/
teamFormationController.js lines 20 to 102. The project and the user pool
are passed directly (ObjectId validation and the 404 path are the database
layer). Empty required skills return an empty match list without touching
the suggestion collection; otherwise the candidates are the users with role
student not among the current team member ids, the scored matches are
filtered and sorted by findMatchingStudents, truncated to the limit, and the
cached suggestions of the project are replaced, deleteMany then insertMany,
with exactly the truncated list. -/
def findMatchingStudentsForProject (pid : String) (project : Project)
    (users : List UserRec) (st : MatchState) (minScore : ℤ) (lim : Nat)
    (now : Nat) : FindMatchesOutcome × MatchState :=
  if project.requiredSkills.length = 0 then
    ({ totalMatches := 0, matchList := [] }, st)
  else
    let students := users.filter
      (fun u => u.role == "student" && !(project.studentIds.contains u.uid))
    let scored := findMatchingStudents students project.requiredSkills minScore
    let limitedMatches := scored.take lim
    let cleared := st.suggestions.filter (fun s => !(s.projectId == pid))
    let newSuggestions := limitedMatches.map (fun m =>
      ({ projectId := pid
       , studentId := m.studentId
       , matchScore := m.score
       , matchedSkills := m.matchedSkills
       , missingSkills := m.missingSkills
       , matchLevel := suggestionMatchLevel m.score
       , createdAt := now } : TeamMatchSuggestion))
    ({ totalMatches := scored.length, matchList := limitedMatches },
      { suggestions := cleared ++ newSuggestions })

/-- Sample project requiring two skills, used by the matching witness. -/
def exMatchProject : Project :=
  { exProject with requiredSkills := ["go", "react"] }

/-- Sample user pool: two eligible students, one supervisor, and the team
member alice who must be excluded from the candidates. -/
def exUsers : List UserRec :=
  [{ uid := "bob", name := "Bob", email := "bob@u", department := "CSE"
   , role := "student", skills := ["Go", "Python"], supervisedProjects := [] },
   { uid := "carol", name := "Carol", email := "carol@u", department := "CSE"
   , role := "student", skills := ["react", "go"], supervisedProjects := [] },
   { uid := "dave", name := "Dave", email := "dave@u", department := "CSE"
   , role := "supervisor", skills := ["go"], supervisedProjects := [] },
   { uid := "alice", name := "Alice", email := "alice@u", department := "CSE"
   , role := "student", skills := ["go"], supervisedProjects := [] }]

/-- Sample suggestion cache holding a stale entry for the queried project
and an entry of another project that must survive the replacement. -/
def exMatchState : MatchState :=
  ⟨[{ projectId := "p1", studentId := "old", matchScore := 10
    , matchedSkills := [], missingSkills := []
    , matchLevel := "needs_training", createdAt := 0 },
    { projectId := "p2", studentId := "keep", matchScore := 50
    , matchedSkills := ["go"], missingSkills := ["react"]
    , matchLevel := "good_fit", createdAt := 0 }]⟩

/-- Supervisor request document, src/models/SupervisorRequest.js lines 2 to
14: created pending with an empty response and no response time; the
projectId is null unless the request targets a project. -/
structure SupervisorRequest where
  id : String
  studentId : String
  supervisorId : String
  projectId : Option String
  message : String
  status : String
  supervisorResponse : String
  createdAt : Nat
  respondedAt : Option Nat
deriving DecidableEq, Repr

/-- State touched by the supervisor controller: the users, the projects
keyed by id, and the supervisor request collection. -/
structure SupState where
  users : List UserRec
  projects : List (String × Project)
  requests : List SupervisorRequest
deriving DecidableEq, Repr

/-- findOne on the users collection by uid. -/
def findUser (st : SupState) (uid : String) : Option UserRec :=
  st.users.find? (fun u => u.uid == uid)

/-- findOne on the projects collection by id. -/
def findProject (st : SupState) (pid : String) : Option Project :=
  (st.projects.find? (fun e => e.1 == pid)).map (fun e => e.2)

/-- Filter of the duplicate-pending findOne of
src/controllers/supervisorController.js lines 150 to 157: same student,
same supervisor, same optional project, status pending. -/
def pendingForTriple (requests : List SupervisorRequest)
    (studentId supervisorId : String) (projectId : Option String) :
    List SupervisorRequest :=
  requests.filter (fun r => r.studentId == studentId
    && r.supervisorId == supervisorId && r.projectId == projectId
    && r.status == "pending")

/-- Existence test behind the 400 duplicate-pending response,
src/controllers/supervisorController.js lines 152 to 163. -/
def hasPendingDuplicate (requests : List SupervisorRequest)
    (studentId supervisorId : String) (projectId : Option String) : Bool :=
  requests.any (fun r => r.studentId == studentId
    && r.supervisorId == supervisorId && r.projectId == projectId
    && r.status == "pending")

/-- Outcomes of sendRequest, one constructor per distinct response of
src/controllers/supervisorController.js lines 98 to 193: 400 invalid data,
404 supervisor not found, 400 not a supervisor, 404 project not found, 403
project not yours, 400 project already has a supervisor and 400 duplicate
pending request (the latter two are the Conflict cases of the error
taxonomy), and success carrying the created request. -/
inductive SendOutcome where
  | ok (request : SupervisorRequest)
  | validationError
  | supervisorNotFound
  | notASupervisor
  | projectNotFound
  | forbidden
  | conflictProjectHasSupervisor
  | conflictDuplicatePending
deriving DecidableEq, Repr

/-- supervisorRequestSchema, src/unnamed/part_004 lines 92 to 96: the
message is required with twenty to five hundred characters; the projectId is
either null or a non-empty id (the ObjectId pattern is abstracted to
non-emptiness). -/
def supervisorRequestValid (message : String) (projectId : Option String) :
    Bool :=
  (20 ≤ message.length && message.length ≤ 500) &&
  (match projectId with
   | some p => !(p == "")
   | none => true)

/-- Fresh pending request inserted by sendRequest, constructor defaults of
src/models/SupervisorRequest.js lines 2 to 14. -/
def newPendingRequest (studentUid supervisorId : String)
    (projectId : Option String) (message : String) (newId : String)
    (now : Nat) : SupervisorRequest :=
  { id := newId
  , studentId := studentUid
  , supervisorId := supervisorId
  , projectId := projectId
  , message := message
  , status := "pending"
  , supervisorResponse := ""
  , createdAt := now
  , respondedAt := none }

/-- Creation path of sendRequest, src/controllers/supervisorController.js
lines 150 to 185: the duplicate-pending check followed by the insertion of a
fresh pending request. -/
def createRequest (st : SupState) (studentUid supervisorId : String)
    (projectId : Option String) (message : String) (newId : String)
    (now : Nat) : SendOutcome × SupState :=
  if hasPendingDuplicate st.requests studentUid supervisorId projectId then
    (.conflictDuplicatePending, st)
  else
    (.ok (newPendingRequest studentUid supervisorId projectId message newId now),
      { st with requests := st.requests ++
          [newPendingRequest studentUid supervisorId projectId message newId now] })

/-- sendRequest, src/controllers/supervisorController.js lines 98 to 193:
validation, supervisor lookup and role check, then for a request tied to a
project the ownership and no-supervisor-yet checks, then the
duplicate-pending conflict check, then the insertion. -/
def sendRequest (st : SupState) (studentUid supervisorId : String)
    (projectId : Option String) (message : String) (newId : String)
    (now : Nat) : SendOutcome × SupState :=
  if supervisorRequestValid message projectId = false then
    (.validationError, st)
  else
    match findUser st supervisorId with
    | none => (.supervisorNotFound, st)
    | some sup =>
      if sup.role ≠ "supervisor" then (.notASupervisor, st)
      else
        match projectId with
        | some pid =>
          (match findProject st pid with
           | none => (.projectNotFound, st)
           | some proj =>
             if proj.authorId ≠ studentUid then (.forbidden, st)
             else if proj.supervisorId ≠ "" then
               (.conflictProjectHasSupervisor, st)
             else createRequest st studentUid supervisorId projectId message
               newId now)
        | none => createRequest st studentUid supervisorId projectId message
            newId now

/-- MongoDB addToSet on an embedded array: append the value unless already
present. -/
def addToSet (x : String) (xs : List String) : List String :=
  if xs.contains x then xs else xs ++ [x]

/-- Sample supervisor user. -/
def exSupUser : UserRec :=
  { uid := "supvr", name := "Sup", email := "sup@u", department := "CSE"
  , role := "supervisor", skills := [], supervisedProjects := [] }

/-- Sample supervisor state with one pending request not tied to a project,
used by the duplicate-pending witness. -/
def exSupState : SupState :=
  { users := [exSupUser]
  , projects := []
  , requests := [newPendingRequest "alice" "supvr" none
      "Please supervise my thesis" "r1" 0] }

/-- Sample pending request tied to project p1. -/
def exPendingReq : SupervisorRequest :=
  newPendingRequest "alice" "supvr" (some "p1")
    "Please supervise my thesis" "r1" 0

/-- Sample project awaiting supervisor assignment. -/
def exSupProjectNoSup : Project :=
  { exProject with supervisorId := "" }

/-- Sample supervisor state used by the approval witness: the supervisor,
the unassigned project and the pending request tied to it. -/
def exRespondState : SupState :=
  { users := [exSupUser]
  , projects := [("p1", exSupProjectNoSup)]
  , requests := [exPendingReq] }

/-- Outcomes of respondToRequest, one constructor per distinct response of
src/controllers/supervisorController.js lines 322 to 409: 400 invalid data,
404 request not found, 403 not your request, 400 already responded, and
success carrying the terminal status of the response body. -/
inductive RespondOutcome where
  | ok (newStatus : String)
  | validationError
  | notFound
  | forbidden
  | alreadyResponded
deriving DecidableEq, Repr

/-- supervisorResponseSchema, src/unnamed/part_004 lines 98 to 101: the
action must be approve or reject; the response is optional, non-empty when
present, at most five hundred characters. -/
def supervisorResponseValid (action : String) (response : Option String) :
    Bool :=
  (action == "approve" || action == "reject") &&
  (match response with
   | some r => !(r == "") && r.length ≤ 500
   | none => true)

/-- Request update of respondToRequest, src/controllers/
supervisorController.js lines 360 to 370: the terminal status, the optional
response defaulting to the empty string, and the response time. -/
def respondApplyRequest (st : SupState) (reqId newStatus : String)
    (response : Option String) (now : Nat) : SupState :=
  { st with
    requests :=
      updateFirst (fun r => r.id == reqId)
        (fun r =>
          { r with
            status := newStatus
            supervisorResponse := response.getD ""
            respondedAt := some now })
        st.requests }

/-- Project assignment of an approved request,
src/controllers/supervisorController.js lines 372 to 393: set the project
supervisorId and stamp updatedAt, then addToSet the project id into the
supervisor supervisedProjects. -/
def respondAssignProject (st : SupState) (pid supervisorUid : String)
    (now : Nat) : SupState :=
  let stp : SupState :=
    { st with
      projects :=
        updateFirst (fun e => e.1 == pid)
          (fun e =>
            (e.1, { e.2 with supervisorId := supervisorUid, updatedAt := now }))
          st.projects }
  { stp with
    users :=
      updateFirst (fun u => u.uid == supervisorUid)
        (fun u =>
          { u with supervisedProjects := addToSet pid u.supervisedProjects })
        stp.users }

/-- Team membership document, src/models/TeamMember.js lines 2 to 12. -/
structure TeamMember where
  id : String
  projectId : String
  userId : String
  role : String
  contribution : String
  status : String
  joinedAt : Nat
  createdAt : Nat
deriving DecidableEq, Repr

/-- State touched by the team formation controller: the membership
collection and the projects keyed by id. -/
structure TeamState where
  members : List TeamMember
  projects : List (String × Project)
deriving DecidableEq, Repr

/-- findOne on the projects collection by id, team formation side. -/
def findTeamProject (st : TeamState) (pid : String) : Option Project :=
  (st.projects.find? (fun e => e.1 == pid)).map (fun e => e.2)

/-- Outcomes of the team operations, one constructor per distinct response
of src/controllers/teamFormationController.js: 400 invalid data, 404 not
found, 403 not yours, 400 already a member (Conflict), 400 already
responded, 400 leader cannot leave (PreconditionFailed), and success. -/
inductive TeamOutcome where
  | ok
  | validationError
  | notFound
  | forbidden
  | conflict
  | alreadyResponded
  | preconditionFailed
deriving DecidableEq, Repr

/-- teamInvitationSchema, src/unnamed/part_004 lines 104 to 108: projectId
and userId required (non-empty, the ObjectId pattern abstracted), message
optional with at most five hundred characters. -/
def teamInvitationValid (pid userId : String) (message : Option String) :
    Bool :=
  (!(pid == "") && !(userId == "")) &&
  (match message with
   | some m => !(m == "") && m.length ≤ 500
   | none => true)

/-- inviteToTeam, src/controllers/teamFormationController.js lines 108 to
173: validation, project lookup, the only-the-leader-invites check, the
already-a-member check, then insertion of an invited membership with role
member (constructor defaults of src/models/TeamMember.js lines 2 to 12). -/
def inviteToTeam (st : TeamState) (inviterUid pid userId : String)
    (message : Option String) (newId : String) (now : Nat) :
    TeamOutcome × TeamState :=
  if teamInvitationValid pid userId message = false then
    (.validationError, st)
  else
    match findTeamProject st pid with
    | none => (.notFound, st)
    | some project =>
      if project.authorId ≠ inviterUid then (.forbidden, st)
      else if project.studentIds.contains userId then (.conflict, st)
      else
        (.ok,
          { st with members := st.members ++
              [{ id := newId
               , projectId := pid
               , userId := userId
               , role := "member"
               , contribution := ""
               , status := "invited"
               , joinedAt := now
               , createdAt := now }] })

/-- teamResponseSchema, src/unnamed/part_004 lines 110 to 112. -/
def teamResponseValid (action : String) : Bool :=
  action == "accept" || action == "reject"

/-- Removal of the first element satisfying a predicate, the semantics of a
MongoDB deleteOne call on the collections modelled as lists. -/
def removeFirst (p : α → Bool) : List α → List α
  | [] => []
  | x :: xs => if p x then xs else x :: removeFirst p xs

/-- respondToInvitation, src/controllers/teamFormationController.js lines
179 to 257: validation, invitation lookup, the for-you and still-invited
checks; accept turns the membership active, stamps joinedAt and addToSets
the student into the project studentIds; reject deletes the membership
record outright. -/
def respondToInvitation (st : TeamState) (inviteId studentUid action : String)
    (now : Nat) : TeamOutcome × TeamState :=
  if teamResponseValid action = false then
    (.validationError, st)
  else
    match st.members.find? (fun m => m.id == inviteId) with
    | none => (.notFound, st)
    | some invitation =>
      if invitation.userId ≠ studentUid then (.forbidden, st)
      else if invitation.status ≠ "invited" then (.alreadyResponded, st)
      else if action = "accept" then
        (.ok,
          { members :=
              updateFirst (fun m => m.id == inviteId)
                (fun m => { m with status := "active", joinedAt := now })
                st.members
          , projects :=
              updateFirst (fun e => e.1 == invitation.projectId)
                (fun e =>
                  (e.1, { e.2 with
                    studentIds := addToSet studentUid e.2.studentIds
                    updatedAt := now }))
                st.projects })
      else
        (.ok,
          { st with members :=
              removeFirst (fun m => m.id == inviteId) st.members })

/-- leaveTeam, src/controllers/teamFormationController.js lines 312 to 369:
the membership is looked up by id and user, a leader may not leave (400),
otherwise the membership status becomes left (updateOne by id only) and the
user is pulled from the project studentIds. -/
def leaveTeam (st : TeamState) (teamId userUid : String) (now : Nat) :
    TeamOutcome × TeamState :=
  match st.members.find? (fun m => m.id == teamId && m.userId == userUid) with
  | none => (.notFound, st)
  | some membership =>
    if membership.role = "leader" then (.preconditionFailed, st)
    else
      (.ok,
        { members :=
            updateFirst (fun m => m.id == teamId)
              (fun m => { m with status := "left" }) st.members
        , projects :=
            updateFirst (fun e => e.1 == membership.projectId)
              (fun e =>
                (e.1, { e.2 with
                  studentIds := e.2.studentIds.filter (fun s => !(s == userUid))
                  updatedAt := now }))
              st.projects })

/-- Word characters of the JS regex escape in [^\w\s]: ASCII letters,
digits and the underscore (the regex has no unicode flag). -/
def jsWordChar (c : Char) : Bool :=
  ('a' ≤ c && c ≤ 'z') || ('A' ≤ c && c ≤ 'Z') ||
  ('0' ≤ c && c ≤ '9') || c == '_'

/-- Splitting a character list at separator characters into the non-empty
fragments between them. JS split on a one-or-more-separators regex differs
only in a possible empty leading fragment, which the length filter of the
tokenizer removes anyway. -/
def splitTokens (p : Char → Bool) (cs : List Char) : List String :=
  let fin := cs.foldl
    (fun (acc : List String × List Char) (c : Char) =>
      if p c then
        (if acc.2.isEmpty then acc.1 else acc.1 ++ [⟨acc.2.reverse⟩], [])
      else (acc.1, c :: acc.2))
    ([], [])
  if fin.2.isEmpty then fin.1 else fin.1 ++ [⟨fin.2.reverse⟩]

/-- Tokenizer of calculateSimilarity, src/validators/collabValidator.js
(duplicate detection utility) lines 60 to 66: lowercase, replace every
character that is neither a word character nor whitespace by a space, split
on whitespace, and keep only tokens longer than two characters. -/
def tokenize (text : String) : List String :=
  (splitTokens jsWhitespace
    ((jsToLower text).data.map
      (fun c => if jsWordChar c || jsWhitespace c then c else ' '))).filter
    (fun t => t.length > 2)

/-- calculateSimilarity, src/validators/collabValidator.js lines 56 to 78: a
falsy (empty) argument yields 0; otherwise the Jaccard index of the two
deduplicated token sets as a percentage, 0 when the union is empty. The JS
expression (intersection.size / union.size) * 100 is modelled by the exact
rational with numerator 100 times the intersection size. -/
def calculateSimilarity (abstract1 abstract2 : String) : ℚ :=
  if abstract1 = "" ∨ abstract2 = "" then 0
  else
    let tokens1 := (tokenize abstract1).toFinset
    let tokens2 := (tokenize abstract2).toFinset
    if (tokens1 ∪ tokens2).card = 0 then 0
    else mkRat (100 * (tokens1 ∩ tokens2).card) ((tokens1 ∪ tokens2).card)

/-- Sample leader membership of project p1. -/
def exLeader : TeamMember :=
  { id := "t1", projectId := "p1", userId := "alice", role := "leader"
  , contribution := "", status := "active", joinedAt := 0, createdAt := 0 }

/-- Sample non-leader membership of project p1. -/
def exMember : TeamMember :=
  { id := "t2", projectId := "p1", userId := "bob", role := "member"
  , contribution := "", status := "active", joinedAt := 0, createdAt := 0 }

/-- Sample team state with a leader and a member. -/
def exTeamState : TeamState :=
  { members := [exLeader, exMember]
  , projects := [("p1", exProject)] }

/-- respondToRequest, src/controllers/supervisorController.js lines 322 to
409: validation, request lookup, ownership and pending checks, the request
update, and for an approval tied to a project the project assignment. -/
def respondToRequest (st : SupState) (reqId supervisorUid : String)
    (action : String) (response : Option String) (now : Nat) :
    RespondOutcome × SupState :=
  if supervisorResponseValid action response = false then
    (.validationError, st)
  else
    match st.requests.find? (fun r => r.id == reqId) with
    | none => (.notFound, st)
    | some request =>
      if request.supervisorId ≠ supervisorUid then (.forbidden, st)
      else if request.status ≠ "pending" then (.alreadyResponded, st)
      else
        let newStatus := if action = "approve" then "approved" else "rejected"
        let st1 := respondApplyRequest st reqId newStatus response now
        (.ok newStatus,
          if action = "approve" then
            match request.projectId with
            | some pid => respondAssignProject st1 pid supervisorUid now
            | none => st1
          else st1)

end KnowledgeTrace

namespace KnowledgeTrace

/-- Bridge between the Bool membership test of the source and propositional
membership in the successor list. -/
theorem canTransitionTo_iff (s t : Status) :
    canTransitionTo s t = true ↔ t ∈ getValidTransitions s := by
  cases s <;> cases t <;> decide

/-- C1: for every project and every actor who is the assigned supervisor or
an admin, advancePhase succeeds and sets the status to the target exactly
when the target is a direct successor of the current status in the
transition table, and for every other target it fails with InvalidTransition
carrying the legal successor set of the current status, leaving the project
unchanged. -/
theorem advancePhase_spec (p : Project) (actorUid actorRole : String)
    (newPhase : Status) (now : Nat)
    (hauth : actorUid = p.supervisorId ∨ actorRole = "admin") :
    (advancePhase p actorUid actorRole newPhase now
        = (.ok, { p with status := newPhase, updatedAt := now })
      ↔ newPhase ∈ getValidTransitions p.status) ∧
    (newPhase ∉ getValidTransitions p.status →
      advancePhase p actorUid actorRole newPhase now
        = (.invalidTransition (getValidTransitions p.status), p)) := by
  have hcond : ¬ (p.supervisorId ≠ actorUid ∧ actorRole ≠ "admin") := by
    rcases hauth with h | h
    · exact fun hc => hc.1 h.symm
    · exact fun hc => hc.2 h
  unfold advancePhase
  rw [if_neg hcond]
  by_cases hct : canTransitionTo p.status newPhase = true
  · have hmem := (canTransitionTo_iff p.status newPhase).mp hct
    rw [hct]
    simp only [Bool.true_eq_false, if_false]
    exact ⟨⟨fun _ => hmem, fun _ => trivial⟩, fun hnot => absurd hmem hnot⟩
  · have hf : canTransitionTo p.status newPhase = false :=
      Bool.eq_false_iff.mpr hct
    have hnmem : newPhase ∉ getValidTransitions p.status := fun hmem =>
      hct ((canTransitionTo_iff p.status newPhase).mpr hmem)
    rw [hf]
    simp only [if_true]
    refine ⟨⟨fun he => ?_, fun hmem => absurd hmem hnmem⟩, fun _ => trivial⟩
    exact absurd (congrArg Prod.fst he) (by simp)

/-- Witness for C1 at a concrete input: the assigned supervisor advances a
draft project to pending_proposal (a table edge), and the advance to
supervisor_review (not an edge from draft) fails with the legal successor
set. -/
theorem advancePhase_spec_witness :
    advancePhase exProject "supvr" "supervisor" .pending_proposal 7
        = (.ok, { exProject with status := .pending_proposal, updatedAt := 7 })
      ∧ advancePhase exProject "supvr" "supervisor" .supervisor_review 7
        = (.invalidTransition [.pending_proposal], exProject) :=
  ⟨(advancePhase_spec exProject "supvr" "supervisor" .pending_proposal 7
      (Or.inl rfl)).1.mpr (by decide),
   (advancePhase_spec exProject "supvr" "supervisor" .supervisor_review 7
      (Or.inl rfl)).2 (by decide)⟩

/-- Updating the first match never changes the number of records: an
updateOne without upsert cannot create anything. -/
theorem updateFirst_length (p : α → Bool) (f : α → α) (l : List α) :
    (updateFirst p f l).length = l.length := by
  induction l with
  | nil => rfl
  | cons x xs ih =>
    by_cases h : p x = true
    · simp [updateFirst, h]
    · simp [updateFirst, h, ih]

/-- When the first match of the filter exists, updateFirst rewrites exactly
that record, so the rewritten record is a member of the result. -/
theorem updateFirst_mem_of_find? (p : α → Bool) (f : α → α) (l : List α)
    (y : α) (h : l.find? p = some y) : f y ∈ updateFirst p f l := by
  induction l with
  | nil => simp [List.find?] at h
  | cons x xs ih =>
    by_cases hx : p x = true
    · rw [List.find?_cons_of_pos _ hx] at h
      injection h with h
      subst h
      simp [updateFirst, hx]
    · rw [List.find?_cons_of_neg _ hx] at h
      simp [updateFirst, hx]
      exact Or.inr (ih h)

/-- C3 as amended: submitProposal succeeds exactly when the actor is the
author, the status is draft and the supervisorId is non-empty; a non-author
actor fails with Forbidden, while an author failing the supervisor or draft
precondition fails with PreconditionFailed; every failure returns the state
unchanged, and on success the status becomes supervisor_review and a proposal
milestone with status in_progress is appended. -/
theorem submitProposal_spec (st : WorkflowState) (actorUid : String) (now : Nat) :
    ((submitProposal st actorUid now).1 = .ok ↔
      (actorUid = st.project.authorId ∧ st.project.status = .draft ∧
        st.project.supervisorId ≠ "")) ∧
    (actorUid ≠ st.project.authorId →
      submitProposal st actorUid now = (.forbidden, st)) ∧
    (actorUid = st.project.authorId → st.project.supervisorId = "" →
      submitProposal st actorUid now = (.preconditionFailed, st)) ∧
    (actorUid = st.project.authorId → st.project.supervisorId ≠ "" →
      st.project.status ≠ .draft →
      submitProposal st actorUid now = (.preconditionFailed, st)) ∧
    ((submitProposal st actorUid now).1 = .ok →
      (submitProposal st actorUid now).2.project.status = .supervisor_review ∧
      (submitProposal st actorUid now).2.project.supervisorId
          = st.project.supervisorId ∧
      (submitProposal st actorUid now).2.milestones = st.milestones ++
        [{ projectId := st.projectId
         , phase := "proposal"
         , status := "in_progress"
         , deadline := none
         , completedAt := none
         , reviewerId := none
         , feedback := ""
         , createdAt := now
         , updatedAt := now }]) := by
  unfold submitProposal
  split_ifs with h1 h2 h3
  · simp [show actorUid ≠ st.project.authorId from fun h => h1 h.symm]
  · simp [not_ne_iff.mp h1, h2]
  · simp [not_ne_iff.mp h1, h2, h3]
  · simp [not_ne_iff.mp h1, h2, not_ne_iff.mp h3]

/-- Counterexample for C3 as stated: with a draft project that has a
supervisor assigned, a caller who is not the author fails, but with the 403
Forbidden response of workflowController.js line 91, not with the claimed
PreconditionFailed. -/
theorem submitProposal_error_kind_counterexample :
    (submitProposal ⟨"p1", exProject, []⟩ "bob" 1).1 = .forbidden ∧
    SubmitOutcome.forbidden ≠ SubmitOutcome.preconditionFailed := by decide

/-- Witness for C3 at a concrete input: the author submitting a draft project
with no supervisor assigned fails with PreconditionFailed and the state is
returned unchanged. -/
theorem submitProposal_spec_witness :
    submitProposal ⟨"p1", { exProject with supervisorId := "" }, []⟩ "alice" 2
      = (.preconditionFailed, ⟨"p1", { exProject with supervisorId := "" }, []⟩) :=
  (submitProposal_spec ⟨"p1", { exProject with supervisorId := "" }, []⟩
    "alice" 2).2.2.1 (by decide) (by decide)

/-- C2 as amended: for an actor who is the assigned supervisor or an admin,
approve succeeds exactly from supervisor_review and yields approved, while
any other status fails with PreconditionFailed and an unchanged state;
request_changes and reject always yield changes_requested; the milestone
write updates the first existing proposal milestone to rejected with the
reviewer and the given feedback but never creates a record (the collection
size is preserved, so nothing is created when no proposal milestone exists);
and rejecting with missing or empty feedback fails validation. -/
theorem reviewProject_spec (st : WorkflowState) (uid role action : String)
    (fb : Option String) (now : Nat)
    (hauth : uid = st.project.supervisorId ∨ role = "admin") :
    (action = "approve" → workflowReviewValid action fb = true →
      (st.project.status = .supervisor_review →
        reviewProject st uid role action fb now =
          reviewApply st uid action fb now .approved) ∧
      (st.project.status ≠ .supervisor_review →
        reviewProject st uid role action fb now = (.preconditionFailed, st))) ∧
    ((action = "request_changes" ∨ action = "reject") →
      ∀ f, fb = some f → f ≠ "" →
      reviewProject st uid role action fb now =
        reviewApply st uid action fb now .changes_requested) ∧
    ((reviewMilestoneWrite st.projectId uid action fb now st.milestones).length
        = st.milestones.length) ∧
    (∀ m0, st.milestones.find?
        (fun m => m.projectId == st.projectId && m.phase == "proposal")
          = some m0 →
      action ≠ "approve" →
      { m0 with
        status := "rejected"
        reviewerId := some uid
        feedback := fb.getD ""
        completedAt := some now
        updatedAt := now } ∈
        reviewMilestoneWrite st.projectId uid action fb now st.milestones) ∧
    ((action = "request_changes" ∨ action = "reject") →
      (fb = none ∨ fb = some "") →
      reviewProject st uid role action fb now = (.validationError, st)) := by
  have hcond : ¬ (st.project.supervisorId ≠ uid ∧ role ≠ "admin") := by
    rcases hauth with h | h
    · exact fun hc => hc.1 h.symm
    · exact fun hc => hc.2 h
  refine ⟨?_, ?_, updateFirst_length _ _ _, ?_, ?_⟩
  · intro ha hv
    subst ha
    constructor
    · intro hs
      unfold reviewProject
      rw [hv, if_neg (by decide : ¬ (true = false)), if_neg hcond, if_pos rfl,
        if_pos hs]
    · intro hs
      unfold reviewProject
      rw [hv, if_neg (by decide : ¬ (true = false)), if_neg hcond, if_pos rfl,
        if_neg hs]
  · intro hor f hf hne
    subst hf
    have hv : workflowReviewValid action (some f) = true := by
      rcases hor with h | h <;> subst h <;> simp [workflowReviewValid, hne]
    rcases hor with h | h <;> subst h <;>
      unfold reviewProject <;>
      rw [hv, if_neg (by decide : ¬ (true = false)), if_neg hcond,
        if_neg (by decide)]
    · rw [if_pos rfl]
    · rw [if_neg (by decide), if_pos rfl]
  · intro m0 hfind hna
    have hmem := updateFirst_mem_of_find?
      (fun m => m.projectId == st.projectId && m.phase == "proposal")
      (fun m =>
        { m with
          status := if action = "approve" then "completed" else "rejected"
          reviewerId := some uid
          feedback := fb.getD ""
          completedAt := some now
          updatedAt := now })
      st.milestones m0 hfind
    unfold reviewMilestoneWrite
    simpa [hna] using hmem
  · intro hor hfb
    have hv : workflowReviewValid action fb = false := by
      rcases hor with h | h <;> subst h <;> rcases hfb with h2 | h2 <;>
        subst h2 <;> decide
    unfold reviewProject
    rw [hv, if_pos rfl]

/-- Counterexample for C2 as stated: a supervisor rejects a project in
supervisor_review (a reviewable state) with non-empty feedback while no
proposal milestone exists; the call succeeds with status changes_requested
but the milestone collection stays empty, so no proposal milestone carrying
the rejected status and the feedback is created, against the updates-or-
creates wording of the claim. -/
theorem review_milestone_counterexample :
    (reviewProject exReviewState "supvr" "supervisor" "reject"
        (some "needs work") 3).1 = .ok .changes_requested ∧
    (reviewProject exReviewState "supvr" "supervisor" "reject"
        (some "needs work") 3).2.milestones = [] := by decide

/-- Witness for C2 at a concrete input: the assigned supervisor approves a
project in supervisor_review and the call lands on approved. -/
theorem reviewProject_spec_witness :
    reviewProject exReviewState "supvr" "supervisor" "approve" none 4
      = reviewApply exReviewState "supvr" "approve" none 4 .approved :=
  ((reviewProject_spec exReviewState "supvr" "supervisor" "approve" none 4
    (Or.inl rfl)).1 rfl (by decide)).1 rfl

/-- C4 as amended: advancePhase only ever writes a direct successor of the
current status; submitProposal writes supervisor_review from draft, which is
not a single edge but the composition of the two table edges draft to
pending_proposal and pending_proposal to supervisor_review; a successful
review lands either on approved coming from supervisor_review (a single
edge) or on changes_requested regardless of the current status. -/
theorem workflow_status_writes (p : Project) (st : WorkflowState)
    (uid role action : String) (fb : Option String) (t : Status)
    (now : Nat) :
    ((advancePhase p uid role t now).1 = .ok →
      (advancePhase p uid role t now).2.status ∈ getValidTransitions p.status) ∧
    ((submitProposal st uid now).1 = .ok →
      st.project.status = .draft ∧
      (submitProposal st uid now).2.project.status = .supervisor_review ∧
      Status.pending_proposal ∈ getValidTransitions .draft ∧
      Status.supervisor_review ∈ getValidTransitions .pending_proposal) ∧
    (∀ ns st2, reviewProject st uid role action fb now = (.ok ns, st2) →
      st2.project.status = ns ∧
      ((ns = .approved ∧ st.project.status = .supervisor_review ∧
          ns ∈ getValidTransitions st.project.status) ∨
        ns = .changes_requested)) := by
  refine ⟨?_, ?_, ?_⟩
  · unfold advancePhase
    split_ifs with h1 h2
    · intro h
      simp at h
    · intro h
      simp at h
    · intro h
      have hb : canTransitionTo p.status t = true := by
        cases hcb : canTransitionTo p.status t
        · exact absurd hcb h2
        · rfl
      show t ∈ getValidTransitions p.status
      exact (canTransitionTo_iff p.status t).mp hb
  · unfold submitProposal
    split_ifs with h1 h2 h3
    · intro h
      simp at h
    · intro h
      simp at h
    · intro h
      simp at h
    · intro h
      exact ⟨not_ne_iff.mp h3, rfl, by decide, by decide⟩
  · intro ns st2 h
    unfold reviewProject at h
    split_ifs at h with h1 h2 h3 h4 h5 h6
    · simp at h
    · simp at h
    · simp only [reviewApply, Prod.mk.injEq] at h
      obtain ⟨ho, hs⟩ := h
      injection ho with hns
      subst hns
      subst hs
      exact ⟨rfl, Or.inl ⟨rfl, h4, by rw [h4]; decide⟩⟩
    · simp at h
    · simp only [reviewApply, Prod.mk.injEq] at h
      obtain ⟨ho, hs⟩ := h
      injection ho with hns
      subst hns
      subst hs
      exact ⟨rfl, Or.inr rfl⟩
    · simp only [reviewApply, Prod.mk.injEq] at h
      obtain ⟨ho, hs⟩ := h
      injection ho with hns
      subst hns
      subst hs
      exact ⟨rfl, Or.inr rfl⟩
    · simp at h

/-- Counterexample for C4 as stated: submitProposal moves a draft project
directly to supervisor_review, which is not a direct successor of draft, and
a request_changes review moves a draft project to changes_requested, which
is not a direct successor of draft either; both operations write a status
outside the successor set of the current status. -/
theorem workflow_single_edge_counterexample :
    ((submitProposal ⟨"p1", exProject, []⟩ "alice" 1).1 = .ok ∧
      (submitProposal ⟨"p1", exProject, []⟩ "alice" 1).2.project.status
        = .supervisor_review ∧
      exProject.status = .draft ∧
      Status.supervisor_review ∉ getValidTransitions .draft) ∧
    ((reviewProject ⟨"p1", exProject, []⟩ "supvr" "supervisor"
        "request_changes" (some "fix") 2).1 = .ok .changes_requested ∧
      Status.changes_requested ∉ getValidTransitions .draft) := by decide

/-- Witness for C4 at a concrete input: a legal advance of a draft project
lands inside the successor set of draft. -/
theorem workflow_status_writes_witness :
    (advancePhase exProject "supvr" "supervisor" .pending_proposal 1).2.status
      ∈ getValidTransitions exProject.status :=
  (workflow_status_writes exProject ⟨"p1", exProject, []⟩ "supvr" "supervisor"
    "approve" none .pending_proposal 1).1 (by decide)

/-- Math.round of a non-negative value is non-negative. -/
theorem jsRound_nonneg (q : ℚ) (hq : 0 ≤ q) : 0 ≤ jsRound q := by
  unfold jsRound
  have hnum : 0 ≤ q.num := Rat.num_nonneg.mpr hq
  have hden : (0 : ℤ) ≤ (q.den : ℤ) := Int.natCast_nonneg _
  exact Int.ediv_nonneg (by omega) (by omega)

/-- Math.round of a value at most one hundred is at most one hundred. -/
theorem jsRound_le_100 (q : ℚ) (hq : q ≤ 100) : jsRound q ≤ 100 := by
  unfold jsRound
  have hnum : q.num ≤ 100 * (q.den : ℤ) := by
    have h := Rat.le_def.mp hq
    simpa [Rat.num_ofNat, Rat.den_ofNat] using h
  have hden : (0 : ℤ) < (q.den : ℤ) := by exact_mod_cast q.den_pos
  by_contra hc
  push_neg at hc
  have h101 : (101 : ℤ) ≤ (2 * q.num + q.den) / (2 * (q.den : ℤ)) := by omega
  have hmul := (Int.le_ediv_iff_mul_le (by omega : (0:ℤ) < 2 * (q.den : ℤ))).mp h101
  omega

/-- C5 as amended: for non-empty student and required skills, the returned
score is the rounded percentage of matched required skills, matching is
case-insensitive whitespace-trimmed membership, the score lies between zero
and one hundred, and the match level thresholds are applied to the
percentage before rounding (not to the returned rounded score); the concrete
scenario of the claim holds. -/
theorem calculateMatchScore_spec (ss rs : List String)
    (h1 : ss ≠ []) (h2 : rs ≠ []) :
    (calculateMatchScore ss rs).score
        = jsRound (mkRat (100 * (matchedSkillsOf ss rs).length) rs.length) ∧
    (∀ t, t ∈ (calculateMatchScore ss rs).matchedSkills ↔
      (t ∈ rs.map normalizeSkill ∧ t ∈ ss.map normalizeSkill)) ∧
    (∀ t, t ∈ (calculateMatchScore ss rs).missingSkills ↔
      (t ∈ rs.map normalizeSkill ∧ t ∉ ss.map normalizeSkill)) ∧
    (calculateMatchScore ss rs).matchLevel
        = (if 70 ≤ matchScorePct ss rs then "best_fit"
           else if 40 ≤ matchScorePct ss rs then "good_fit"
           else "needs_training") ∧
    0 ≤ (calculateMatchScore ss rs).score ∧
    (calculateMatchScore ss rs).score ≤ 100 ∧
    calculateMatchScore ["Go", "Python"] ["go", "react"]
        = { score := 50, matchedSkills := ["go"], missingSkills := ["react"]
          , totalRequired := 2, matchLevel := "good_fit" } := by
  have hrne : rs.length ≠ 0 := fun h => h2 (List.length_eq_zero.mp h)
  have hsne : ss.length ≠ 0 := fun h => h1 (List.length_eq_zero.mp h)
  have hpct0 : 0 ≤ matchScorePct ss rs := by
    unfold matchScorePct
    rw [Rat.mkRat_eq_div]
    positivity
  have hpct100 : matchScorePct ss rs ≤ 100 := by
    have hmr : (matchedSkillsOf ss rs).length ≤ (normalizeSkills rs).length :=
      List.length_filter_le _ _
    have hRpos : (0 : ℚ) < ((normalizeSkills rs).length : ℚ) := by
      have : (normalizeSkills rs).length = rs.length := by
        simp [normalizeSkills]
      rw [this]
      exact_mod_cast Nat.pos_of_ne_zero hrne
    unfold matchScorePct
    rw [Rat.mkRat_eq_div, div_le_iff₀ hRpos]
    push_cast
    have hcast : ((matchedSkillsOf ss rs).length : ℚ)
        ≤ ((normalizeSkills rs).length : ℚ) := by exact_mod_cast hmr
    nlinarith
  unfold calculateMatchScore
  rw [if_neg hrne, if_neg hsne]
  refine ⟨?_, ?_, ?_, rfl, jsRound_nonneg _ hpct0, jsRound_le_100 _ hpct100,
    by decide⟩
  · show jsRound (matchScorePct ss rs) = _
    unfold matchScorePct
    simp [normalizeSkills]
  · intro t
    show t ∈ matchedSkillsOf ss rs ↔ _
    simp [matchedSkillsOf, normalizeSkills, List.mem_filter]
  · intro t
    show t ∈ missingSkillsOf ss rs ↔ _
    simp [missingSkillsOf, normalizeSkills, List.mem_filter]

/-- Counterexample for C5 as stated: with twenty-three required skills of
which sixteen match, the returned rounded score is 70 but the returned match
level is good_fit, because the source compares the thresholds against the
unrounded percentage 69.565; this contradicts the claimed implication that a
returned score of at least 70 yields best_fit. -/
theorem matchLevel_rounding_counterexample :
    70 ≤ (calculateMatchScore exSkills16 exRequired23).score ∧
    (calculateMatchScore exSkills16 exRequired23).matchLevel = "good_fit" ∧
    "good_fit" ≠ "best_fit" := by decide

/-- Witness for C5 at the concrete scenario of the claim. -/
theorem calculateMatchScore_spec_witness :
    calculateMatchScore ["Go", "Python"] ["go", "react"]
      = { score := 50, matchedSkills := ["go"], missingSkills := ["react"]
        , totalRequired := 2, matchLevel := "good_fit" } :=
  (calculateMatchScore_spec ["Go", "Python"] ["go", "react"]
    (by decide) (by decide)).2.2.2.2.2.2

/-- Unfolding of findMatchingStudents: the guard on an empty student pool
returns what the pipeline returns on the empty pool anyway. -/
theorem findMatchingStudents_eq (students : List UserRec) (rs : List String)
    (minScore : ℤ) :
    findMatchingStudents students rs minScore
      = List.insertionSort (fun a b => b.score ≤ a.score)
          ((students.map (fun s => toMatchEntry s rs)).filter
            (fun m => minScore ≤ m.score)) := by
  cases students with
  | nil => rfl
  | cons x xs => rfl

/-- C6: with empty required skills the matching endpoint returns no matches
and leaves the suggestion cache untouched; otherwise the cache of the
project is replaced by exactly the returned truncated list, whose length is
at most the limit, whose entries all reach the minimum score, which is
sorted by descending score, and whose entries are scored candidates (users
with role student not already on the team); the reported total is the size
of the full filtered scored pool and the number of cached entries for the
project is the minimum of the limit and that total, so the truncation and
not the full scored set is persisted. -/
theorem findMatches_spec (pid : String) (project : Project)
    (users : List UserRec) (st : MatchState) (minScore : ℤ) (lim : Nat)
    (now : Nat) :
    (project.requiredSkills = [] →
      findMatchingStudentsForProject pid project users st minScore lim now
        = ({ totalMatches := 0, matchList := [] }, st)) ∧
    (project.requiredSkills ≠ [] →
      (findMatchingStudentsForProject pid project users st minScore lim
          now).2.suggestions
        = st.suggestions.filter (fun s => !(s.projectId == pid))
          ++ ((findMatchingStudentsForProject pid project users st minScore lim
              now).1.matchList.map (fun m =>
            ({ projectId := pid
             , studentId := m.studentId
             , matchScore := m.score
             , matchedSkills := m.matchedSkills
             , missingSkills := m.missingSkills
             , matchLevel := suggestionMatchLevel m.score
             , createdAt := now } : TeamMatchSuggestion))) ∧
      (findMatchingStudentsForProject pid project users st minScore lim
          now).1.matchList.length ≤ lim ∧
      (∀ m ∈ (findMatchingStudentsForProject pid project users st minScore lim
          now).1.matchList, minScore ≤ m.score) ∧
      List.Pairwise (fun a b => b.score ≤ a.score)
        (findMatchingStudentsForProject pid project users st minScore lim
          now).1.matchList ∧
      (∀ m ∈ (findMatchingStudentsForProject pid project users st minScore lim
          now).1.matchList, ∃ u, u ∈ users ∧
        u.role = "student" ∧ u.uid ∉ project.studentIds ∧
        m = toMatchEntry u project.requiredSkills) ∧
      (findMatchingStudentsForProject pid project users st minScore lim
          now).1.totalMatches
        = (((users.filter (fun u => u.role == "student"
              && !(project.studentIds.contains u.uid))).map
            (fun s => toMatchEntry s project.requiredSkills)).filter
            (fun m => minScore ≤ m.score)).length ∧
      ((findMatchingStudentsForProject pid project users st minScore lim
          now).2.suggestions.filter (fun s => s.projectId == pid)).length
        = min lim (findMatchingStudentsForProject pid project users st minScore
            lim now).1.totalMatches) := by
  constructor
  · intro h
    unfold findMatchingStudentsForProject
    rw [if_pos (by rw [h]; rfl)]
  · intro h
    have hlen : ¬ project.requiredSkills.length = 0 := fun hl =>
      h (List.length_eq_zero.mp hl)
    haveI : IsTotal MatchEntry (fun a b => b.score ≤ a.score) :=
      ⟨fun a b => le_total b.score a.score⟩
    haveI : IsTrans MatchEntry (fun a b => b.score ≤ a.score) :=
      ⟨fun a b c h1 h2 => le_trans h2 h1⟩
    unfold findMatchingStudentsForProject
    rw [if_neg hlen]
    dsimp only
    rw [findMatchingStudents_eq]
    set filtered := ((users.filter (fun u => u.role == "student"
        && !(project.studentIds.contains u.uid))).map
      (fun s => toMatchEntry s project.requiredSkills)).filter
      (fun m => minScore ≤ m.score) with hfiltered
    set sorted := List.insertionSort (fun a b => b.score ≤ a.score) filtered
      with hsorted
    have hperm : sorted.Perm filtered := List.perm_insertionSort _ _
    refine ⟨rfl, List.length_take_le _ _, ?_, ?_, ?_, ?_, ?_⟩
    · intro m hm
      have hmem : m ∈ filtered := hperm.mem_iff.mp (List.take_subset _ _ hm)
      rw [hfiltered] at hmem
      simp only [List.mem_filter, decide_eq_true_eq] at hmem
      exact hmem.2
    · exact List.Pairwise.sublist (List.take_sublist _ _)
        (List.sorted_insertionSort _ _)
    · intro m hm
      have hmem : m ∈ filtered := hperm.mem_iff.mp (List.take_subset _ _ hm)
      rw [hfiltered] at hmem
      simp only [List.mem_filter, List.mem_map] at hmem
      obtain ⟨⟨u, hu, rfl⟩, _⟩ := hmem
      simp only [List.mem_filter, Bool.and_eq_true, Bool.not_eq_true',
        beq_iff_eq] at hu
      refine ⟨u, hu.1, hu.2.1, ?_, rfl⟩
      intro hin
      have hcontains : project.studentIds.contains u.uid = true := by
        simpa [List.elem_iff] using hin
      rw [hcontains] at hu
      exact absurd hu.2.2 (by simp)
    · exact hperm.length_eq
    · rw [List.filter_append]
      have hcleared : (st.suggestions.filter
          (fun s => !(s.projectId == pid))).filter
          (fun s => s.projectId == pid) = [] := by
        rw [List.filter_eq_nil_iff]
        intro a ha hpa
        have hna := (List.mem_filter.mp ha).2
        rw [hpa] at hna
        exact absurd hna (by simp)
      have hkept : ((sorted.take lim).map (fun m =>
          ({ projectId := pid
           , studentId := m.studentId
           , matchScore := m.score
           , matchedSkills := m.matchedSkills
           , missingSkills := m.missingSkills
           , matchLevel := suggestionMatchLevel m.score
           , createdAt := now } : TeamMatchSuggestion))).filter
          (fun s => s.projectId == pid)
          = (sorted.take lim).map (fun m =>
          ({ projectId := pid
           , studentId := m.studentId
           , matchScore := m.score
           , matchedSkills := m.matchedSkills
           , missingSkills := m.missingSkills
           , matchLevel := suggestionMatchLevel m.score
           , createdAt := now } : TeamMatchSuggestion)) := by
        rw [List.filter_eq_self]
        intro a ha
        obtain ⟨m, _, rfl⟩ := List.mem_map.mp ha
        simp
      rw [hcleared, hkept]
      simp only [List.nil_append, List.length_map, List.length_take]

/-- Witness for C6 at a concrete input: with limit one and two eligible
candidates the cache of the project is replaced by the image of the single
returned match, and the entry of the other project survives. -/
theorem findMatches_spec_witness :
    (findMatchingStudentsForProject "p1" exMatchProject exUsers exMatchState
        0 1 9).2.suggestions
      = exMatchState.suggestions.filter (fun s => !(s.projectId == "p1"))
        ++ ((findMatchingStudentsForProject "p1" exMatchProject exUsers
            exMatchState 0 1 9).1.matchList.map (fun m =>
          ({ projectId := "p1"
           , studentId := m.studentId
           , matchScore := m.score
           , matchedSkills := m.matchedSkills
           , missingSkills := m.missingSkills
           , matchLevel := suggestionMatchLevel m.score
           , createdAt := 9 } : TeamMatchSuggestion))) :=
  ((findMatches_spec "p1" exMatchProject exUsers exMatchState 0 1 9).2
    (by decide)).1


/-- When the first match of the filter exists and the update preserves the
filter, find? after updateFirst returns the updated record. -/
theorem find?_updateFirst (p : α → Bool) (f : α → α) (l : List α) (y : α)
    (h : l.find? p = some y) (hf : p (f y) = true) :
    (updateFirst p f l).find? p = some (f y) := by
  induction l with
  | nil => simp [List.find?] at h
  | cons x xs ih =>
    by_cases hx : p x = true
    · rw [List.find?_cons_of_pos _ hx] at h
      injection h with h
      subst h
      unfold updateFirst
      rw [if_pos hx]
      exact List.find?_cons_of_pos _ hf
    · rw [List.find?_cons_of_neg _ hx] at h
      unfold updateFirst
      rw [if_neg hx, List.find?_cons_of_neg _ hx]
      exact ih h

/-- addToSet always leaves its argument a member. -/
theorem mem_addToSet_self (x : String) (xs : List String) :
    x ∈ addToSet x xs := by
  unfold addToSet
  split_ifs with h
  · exact List.elem_iff.mp h
  · exact List.mem_append_right _ (List.mem_singleton.mpr rfl)

/-- Case analysis of the state returned by createRequest: either untouched,
or the fresh pending request appended when no duplicate was pending. -/
theorem createRequest_cases (st : SupState) (studentUid supId : String)
    (pid : Option String) (msg newId : String) (now : Nat) :
    (createRequest st studentUid supId pid msg newId now).2 = st ∨
    (hasPendingDuplicate st.requests studentUid supId pid = false ∧
      (createRequest st studentUid supId pid msg newId now).2.requests
        = st.requests ++ [newPendingRequest studentUid supId pid msg newId now]) := by
  unfold createRequest
  split_ifs with h
  · exact Or.inl rfl
  · exact Or.inr ⟨Bool.eq_false_iff.mpr h, rfl⟩

/-- Case analysis of the state returned by sendRequest: every error path but
the duplicate check returns the state untouched, and the success path
appends the fresh pending request with no duplicate pending before. -/
theorem sendRequest_snd_cases (st : SupState) (studentUid supId : String)
    (pid : Option String) (msg newId : String) (now : Nat) :
    (sendRequest st studentUid supId pid msg newId now).2 = st ∨
    (hasPendingDuplicate st.requests studentUid supId pid = false ∧
      (sendRequest st studentUid supId pid msg newId now).2.requests
        = st.requests ++ [newPendingRequest studentUid supId pid msg newId now]) := by
  unfold sendRequest
  split_ifs with h1
  · exact Or.inl rfl
  · cases hfu : findUser st supId with
    | none => exact Or.inl rfl
    | some sup =>
      dsimp only
      split_ifs with h2
      · exact Or.inl rfl
      · cases pid with
        | none =>
          dsimp only
          exact createRequest_cases st studentUid supId none msg newId now
        | some p =>
          dsimp only
          cases hfp : findProject st p with
          | none =>
            dsimp only
            exact Or.inl rfl
          | some proj =>
            dsimp only
            split_ifs with h3 h4
            · exact Or.inl rfl
            · exact Or.inl rfl
            · exact createRequest_cases st studentUid supId (some p) msg newId
                now

/-- C7: a second sendRequest with a triple that is still pending fails with
the Conflict of the duplicate-pending check and leaves the request
collection untouched, both for a request without and with a project (with
the earlier lookup, role, ownership and assignment checks passing); and the
at-most-one-pending-request-per-triple invariant is preserved by sendRequest
from any state that satisfies it. -/
theorem sendRequest_pending_unique :
    (∀ st studentUid supId msg newId now sup,
      supervisorRequestValid msg none = true →
      findUser st supId = some sup → sup.role = "supervisor" →
      hasPendingDuplicate st.requests studentUid supId none = true →
      sendRequest st studentUid supId none msg newId now
        = (.conflictDuplicatePending, st)) ∧
    (∀ st studentUid supId pid msg newId now sup proj,
      supervisorRequestValid msg (some pid) = true →
      findUser st supId = some sup → sup.role = "supervisor" →
      findProject st pid = some proj → proj.authorId = studentUid →
      proj.supervisorId = "" →
      hasPendingDuplicate st.requests studentUid supId (some pid) = true →
      sendRequest st studentUid supId (some pid) msg newId now
        = (.conflictDuplicatePending, st)) ∧
    (∀ st studentUid supId pid msg newId now,
      (∀ sid sup2 pid2,
        (pendingForTriple st.requests sid sup2 pid2).length ≤ 1) →
      ∀ sid sup2 pid2,
        (pendingForTriple
          (sendRequest st studentUid supId pid msg newId now).2.requests
          sid sup2 pid2).length ≤ 1) := by
  refine ⟨?_, ?_, ?_⟩
  · intro st studentUid supId msg newId now sup hv hfu hrole hdup
    unfold sendRequest
    rw [hv, if_neg (by decide : ¬ (true = false)), hfu]
    dsimp only
    rw [if_neg (not_ne_iff.mpr hrole)]
    unfold createRequest
    rw [if_pos hdup]
  · intro st studentUid supId pid msg newId now sup proj hv hfu hrole hfp
      hauthor hsup0 hdup
    unfold sendRequest
    rw [hv, if_neg (by decide : ¬ (true = false)), hfu]
    dsimp only
    rw [if_neg (not_ne_iff.mpr hrole), hfp]
    dsimp only
    rw [if_neg (not_ne_iff.mpr hauthor), if_neg (not_ne_iff.mpr hsup0)]
    unfold createRequest
    rw [if_pos hdup]
  · intro st studentUid supId pid msg newId now hinv sid sup2 pid2
    rcases sendRequest_snd_cases st studentUid supId pid msg newId now with
      h | ⟨hdup, hreq⟩
    · rw [h]
      exact hinv sid sup2 pid2
    · rw [pendingForTriple, hreq, List.filter_append]
      by_cases hmatch :
        ((newPendingRequest studentUid supId pid msg newId now).studentId == sid
          && (newPendingRequest studentUid supId pid msg newId now).supervisorId
            == sup2
          && (newPendingRequest studentUid supId pid msg newId now).projectId
            == pid2
          && (newPendingRequest studentUid supId pid msg newId now).status
            == "pending") = true
      · have hids : studentUid = sid ∧ supId = sup2 ∧ pid = pid2 := by
          simp only [newPendingRequest, Bool.and_eq_true, beq_iff_eq] at hmatch
          exact ⟨hmatch.1.1.1, hmatch.1.1.2, hmatch.1.2⟩
        obtain ⟨hsid, hsup2, hpid2⟩ := hids
        subst hsid
        subst hsup2
        subst hpid2
        have hnil : st.requests.filter (fun r => r.studentId == studentUid
            && r.supervisorId == supId && r.projectId == pid
            && r.status == "pending") = [] := by
          rw [List.filter_eq_nil_iff]
          intro a ha hpa
          have : hasPendingDuplicate st.requests studentUid supId pid = true :=
            List.any_eq_true.mpr ⟨a, ha, hpa⟩
          rw [this] at hdup
          exact absurd hdup (by simp)
        rw [hnil]
        simp [hmatch]
      · have hfalse :
            ((newPendingRequest studentUid supId pid msg newId now).studentId
              == sid
            && (newPendingRequest studentUid supId pid msg newId now).supervisorId
              == sup2
            && (newPendingRequest studentUid supId pid msg newId now).projectId
              == pid2
            && (newPendingRequest studentUid supId pid msg newId now).status
              == "pending") = false := Bool.eq_false_iff.mpr hmatch
        simp only [List.filter_cons, List.filter_nil, hfalse, Bool.false_eq_true,
          if_false, List.append_nil]
        exact hinv sid sup2 pid2


/-- Witness for C7 at a concrete input: with the triple (alice, supvr, none)
still pending, the identical second request fails with the duplicate-pending
Conflict and the state is unchanged. -/
theorem sendRequest_pending_unique_witness :
    sendRequest exSupState "alice" "supvr" none
        "Please supervise my thesis" "r2" 5
      = (.conflictDuplicatePending, exSupState) :=
  sendRequest_pending_unique.1 exSupState "alice" "supvr"
    "Please supervise my thesis" "r2" 5 exSupUser (by decide) (by decide)
    (by decide) (by decide)

/-- C8: approving a pending request tied to a project sets the project
supervisorId to the responding supervisor and stamps updatedAt, leaves every
other project field (status, authorId, studentIds, requiredSkills, abstract,
title, visibility, year) unchanged, records the project id in the supervisor
supervisedProjects set, and closes the request as approved with the response
and the response time. -/
theorem respondToRequest_approve_frame (st : SupState) (reqId uid : String)
    (response : Option String) (now : Nat) (r : SupervisorRequest)
    (pid : String) (p : Project) (u : UserRec)
    (hv : supervisorResponseValid "approve" response = true)
    (hfind : st.requests.find? (fun x => x.id == reqId) = some r)
    (hsup : r.supervisorId = uid)
    (hpend : r.status = "pending")
    (hpid : r.projectId = some pid)
    (hproj : findProject st pid = some p)
    (huser : findUser st uid = some u) :
    (respondToRequest st reqId uid "approve" response now).1 = .ok "approved" ∧
    findProject (respondToRequest st reqId uid "approve" response now).2 pid
      = some { p with supervisorId := uid, updatedAt := now } ∧
    (∀ p2, findProject (respondToRequest st reqId uid "approve" response
        now).2 pid = some p2 →
      p2.supervisorId = uid ∧ p2.status = p.status ∧ p2.authorId = p.authorId ∧
      p2.studentIds = p.studentIds ∧ p2.requiredSkills = p.requiredSkills ∧
      p2.abstract = p.abstract ∧ p2.title = p.title ∧
      p2.visibility = p.visibility ∧ p2.year = p.year) ∧
    findUser (respondToRequest st reqId uid "approve" response now).2 uid
      = some { u with
          supervisedProjects := addToSet pid u.supervisedProjects } ∧
    pid ∈ addToSet pid u.supervisedProjects ∧
    (respondToRequest st reqId uid "approve" response now).2.requests.find?
        (fun x => x.id == reqId)
      = some { r with
          status := "approved"
          supervisorResponse := response.getD ""
          respondedAt := some now } := by
  have hred : respondToRequest st reqId uid "approve" response now
      = (.ok "approved",
        respondAssignProject
          (respondApplyRequest st reqId "approved" response now) pid uid
          now) := by
    unfold respondToRequest
    rw [hv, if_neg (by decide : ¬ (true = false)), hfind]
    dsimp only
    rw [if_neg (not_ne_iff.mpr hsup), if_neg (not_ne_iff.mpr hpend), hpid]
    rw [if_pos rfl, if_pos rfl]
  obtain ⟨e0, hfind0, he⟩ := Option.map_eq_some'.mp hproj
  have hfp2 : findProject
      (respondToRequest st reqId uid "approve" response now).2 pid
      = some { p with supervisorId := uid, updatedAt := now } := by
    rw [hred]
    unfold findProject respondAssignProject respondApplyRequest
    dsimp only
    have hp0 : (fun e => e.1 == pid)
        ((fun e => (e.1, { e.2 with supervisorId := uid, updatedAt := now }))
          e0) = true := by
      simpa using List.find?_some hfind0
    rw [find?_updateFirst _ _ _ _ hfind0 hp0]
    subst he
    rfl
  refine ⟨by rw [hred], hfp2, ?_, ?_, mem_addToSet_self pid _, ?_⟩
  · intro p2 h2
    rw [hfp2] at h2
    injection h2 with h2
    subst h2
    exact ⟨rfl, rfl, rfl, rfl, rfl, rfl, rfl, rfl, rfl⟩
  · rw [hred]
    unfold findUser respondAssignProject respondApplyRequest
    dsimp only
    have hu0 : (fun x => x.uid == uid)
        ((fun x => { x with
            supervisedProjects := addToSet pid x.supervisedProjects }) u)
        = true := by
      simpa using List.find?_some huser
    exact find?_updateFirst _ _ _ _ huser hu0
  · rw [hred]
    unfold respondAssignProject respondApplyRequest
    dsimp only
    have hr0 : (fun x => x.id == reqId)
        ((fun x =>
          ({ x with
             status := "approved"
             supervisorResponse := response.getD ""
             respondedAt := some now } : SupervisorRequest)) r) = true := by
      simpa using List.find?_some hfind
    exact find?_updateFirst _ _ _ _ hfind hr0

/-- Witness for C8 at a concrete input: approving the pending request of
project p1 assigns supvr to the project. -/
theorem respondToRequest_approve_frame_witness :
    findProject (respondToRequest exRespondState "r1" "supvr" "approve" none
        6).2 "p1"
      = some { exSupProjectNoSup with supervisorId := "supvr", updatedAt := 6 } :=
  (respondToRequest_approve_frame exRespondState "r1" "supvr" none 6
    exPendingReq "p1" exSupProjectNoSup exSupUser (by decide) (by decide)
    (by decide) (by decide) (by decide) (by decide) (by decide)).2.1


/-- Membership in an updateFirst result: either an untouched original
member, or the image of the first match of the filter. -/
theorem mem_updateFirst (p : α → Bool) (f : α → α) (l : List α) (x : α)
    (hx : x ∈ updateFirst p f l) :
    x ∈ l ∨ ∃ y, l.find? p = some y ∧ x = f y := by
  induction l with
  | nil => simp [updateFirst] at hx
  | cons a as ih =>
    by_cases ha : p a = true
    · rw [updateFirst, if_pos ha] at hx
      rcases List.mem_cons.mp hx with h | h
      · exact Or.inr ⟨a, List.find?_cons_of_pos _ ha, h⟩
      · exact Or.inl (List.mem_cons_of_mem _ h)
    · rw [updateFirst, if_neg ha] at hx
      rcases List.mem_cons.mp hx with h | h
      · exact Or.inl (h ▸ List.mem_cons_self _ _)
      · rcases ih h with h2 | ⟨y, hy, hxy⟩
        · exact Or.inl (List.mem_cons_of_mem _ h2)
        · exact Or.inr ⟨y, by rw [List.find?_cons_of_neg _ ha]; exact hy, hxy⟩

/-- Membership in a removeFirst result implies membership in the input. -/
theorem mem_removeFirst (p : α → Bool) (l : List α) (x : α)
    (hx : x ∈ removeFirst p l) : x ∈ l := by
  induction l with
  | nil => simp [removeFirst] at hx
  | cons a as ih =>
    by_cases ha : p a = true
    · rw [removeFirst, if_pos ha] at hx
      exact List.mem_cons_of_mem _ hx
    · rw [removeFirst, if_neg ha] at hx
      rcases List.mem_cons.mp hx with h | h
      · exact h ▸ List.mem_cons_self _ _
      · exact List.mem_cons_of_mem _ (ih h)

/-- C9: the invariant that a leader membership never carries status left is
preserved by inviteToTeam, by respondToInvitation, and, under the MongoDB
guarantee that membership ids are pairwise distinct, by leaveTeam; and
leaveTeam called on a leader membership fails with the 400
leader-cannot-leave response (PreconditionFailed) leaving the state
unchanged. -/
theorem leader_never_left (st : TeamState) :
    (∀ inviterUid pid userId message newId now,
      (∀ m ∈ st.members, m.role = "leader" → m.status ≠ "left") →
      ∀ m ∈ (inviteToTeam st inviterUid pid userId message newId
          now).2.members,
        m.role = "leader" → m.status ≠ "left") ∧
    (∀ inviteId studentUid action now,
      (∀ m ∈ st.members, m.role = "leader" → m.status ≠ "left") →
      ∀ m ∈ (respondToInvitation st inviteId studentUid action
          now).2.members,
        m.role = "leader" → m.status ≠ "left") ∧
    ((st.members.map (fun m => m.id)).Nodup →
      ∀ teamId userUid now,
      (∀ m ∈ st.members, m.role = "leader" → m.status ≠ "left") →
      ∀ m ∈ (leaveTeam st teamId userUid now).2.members,
        m.role = "leader" → m.status ≠ "left") ∧
    (∀ teamId userUid now mem,
      st.members.find? (fun m => m.id == teamId && m.userId == userUid)
        = some mem →
      mem.role = "leader" →
      leaveTeam st teamId userUid now = (.preconditionFailed, st)) := by
  refine ⟨?_, ?_, ?_, ?_⟩
  · intro inviterUid pid userId message newId now hinv m hm
    unfold inviteToTeam at hm
    split_ifs at hm with h1
    · exact hinv m hm
    · cases hfp : findTeamProject st pid with
      | none =>
        rw [hfp] at hm
        exact hinv m hm
      | some project =>
        rw [hfp] at hm
        dsimp only at hm
        split_ifs at hm with h2 h3
        · exact hinv m hm
        · exact hinv m hm
        · rcases List.mem_append.mp hm with h | h
          · exact hinv m h
          · rw [List.mem_singleton.mp h]
            intro hrole
            simp at hrole
  · intro inviteId studentUid action now hinv m hm
    unfold respondToInvitation at hm
    by_cases h1 : teamResponseValid action = false
    · rw [if_pos h1] at hm
      exact hinv m hm
    · rw [if_neg h1] at hm
      cases hfi : st.members.find? (fun m => m.id == inviteId) with
      | none =>
          rw [hfi] at hm
          exact hinv m hm
      | some invitation =>
          rw [hfi] at hm
          dsimp only at hm
          by_cases h2 : invitation.userId ≠ studentUid
          · rw [if_pos h2] at hm
            exact hinv m hm
          · rw [if_neg h2] at hm
            by_cases h3 : invitation.status ≠ "invited"
            · rw [if_pos h3] at hm
              exact hinv m hm
            · rw [if_neg h3] at hm
              by_cases h4 : action = "accept"
              · rw [if_pos h4] at hm
                dsimp only at hm
                rcases mem_updateFirst _ _ _ _ hm with h | ⟨y, _, hxy⟩
                · exact hinv m h
                · rw [hxy]
                  intro _
                  exact (by decide : ("active" : String) ≠ "left")
              · rw [if_neg h4] at hm
                dsimp only at hm
                exact hinv m (mem_removeFirst _ _ _ hm)
  · intro hnodup teamId userUid now hinv m hm
    unfold leaveTeam at hm
    cases hfm : st.members.find?
        (fun m => m.id == teamId && m.userId == userUid) with
    | none =>
      rw [hfm] at hm
      exact hinv m hm
    | some membership =>
      rw [hfm] at hm
      dsimp only at hm
      split_ifs at hm with h1
      · exact hinv m hm
      · rcases mem_updateFirst _ _ _ _ hm with h | ⟨y, hy, hxy⟩
        · exact hinv m h
        · have hymem : y ∈ st.members := List.mem_of_find?_eq_some hy
          have hyid : y.id = teamId := by
            simpa using List.find?_some hy
          have hmemid : membership.id = teamId := by
            have := List.find?_some hfm
            simp only [Bool.and_eq_true, beq_iff_eq] at this
            exact this.1
          have hmm : membership ∈ st.members := List.mem_of_find?_eq_some hfm
          have hym : y = membership :=
            List.inj_on_of_nodup_map hnodup hymem hmm (by rw [hyid, hmemid])
          rw [hxy, hym]
          intro hrole
          exact absurd hrole h1
  · intro teamId userUid now mem hfm hrole
    unfold leaveTeam
    rw [hfm]
    dsimp only
    rw [if_pos hrole]

/-- Witness for C9 at a concrete input: the leader of p1 cannot leave; the
call fails with PreconditionFailed and the state is unchanged. -/
theorem leader_never_left_witness :
    leaveTeam exTeamState "t1" "alice" 3 = (.preconditionFailed, exTeamState) :=
  (leader_never_left exTeamState).2.2.2 "t1" "alice" 3 exLeader (by decide)
    (by decide)


/-- C10 as amended: for every text with at least one token surviving the
tokenizer (longer than two characters after lowercasing and punctuation
stripping), the similarity of the text with itself is 100, because the
intersection and the union of the token set with itself coincide. -/
theorem similarity_self (A : String) (h : tokenize A ≠ []) :
    calculateSimilarity A A = 100 := by
  have hA : ¬ (A = "" ∨ A = "") := by
    intro hor
    rcases hor with h1 | h1 <;> (subst h1; exact h rfl)
  unfold calculateSimilarity
  rw [if_neg hA]
  dsimp only
  rw [Finset.union_self, Finset.inter_self]
  have hcard : (tokenize A).toFinset.card ≠ 0 := by
    intro h0
    exact h ((List.toFinset_eq_empty_iff _).mp (Finset.card_eq_zero.mp h0))
  rw [if_neg hcard, Rat.mkRat_eq_div]
  push_cast
  rw [mul_div_assoc, div_self (by exact_mod_cast hcard), mul_one]

/-- Counterexample for C10 as stated: the non-empty text hi tokenizes to
nothing (its only token has length two), so the union of the token sets is
empty and the self-similarity is 0, not 100. -/
theorem similarity_self_counterexample :
    ("hi" : String) ≠ "" ∧ calculateSimilarity "hi" "hi" = 0 ∧
    (0 : ℚ) ≠ 100 := by
  refine ⟨by decide, by decide, by norm_num⟩

/-- Witness for C10 at a concrete input with surviving tokens. -/
theorem similarity_self_witness :
    calculateSimilarity "hello world" "hello world" = 100 :=
  similarity_self "hello world" (by decide)

end KnowledgeTrace
